import Mathlib

/-!
Verification of the conda-solve app (src/app.py) against its specification.

The file shallowly embeds the pure core of the program: the package-spec
validator (`validate_package`, `validate_packages`), the post-subprocess
part of `solve` (JSON-or-failure normalization and the best-effort
conflict-explanation scan), the TTL-keyed memoization of `solve`
(`st.cache_data` keyed on the raw argument values), the process-environment
builder for virtual-package overrides, and the `_readable_size` formatter.

Python string primitives (`strip`, `rstrip`, `lower`, `upper`, `startswith`,
substring containment, `splitlines`, `join`) are modelled structurally over
`List Char` so that every definition is executable and kernel-reducible.
The model covers the ASCII/newline-separated texts the program manipulates:
`lower`/`upper` map the ASCII letter ranges (CPython additionally maps
non-ASCII cased letters, which cannot occur in the validated inputs), and
`splitlines` splits on the newline character.
-/

/-- Characters treated as whitespace by Python `str.strip` (ASCII range). -/
def isPySpace (c : Char) : Bool := c ∈ [' ', '\t', '\n', '\r', '\x0b', '\x0c']

/-- Python `str.strip()`: drop whitespace from both ends. -/
def pyStrip (s : String) : String :=
  ⟨((s.data.dropWhile isPySpace).reverse.dropWhile isPySpace).reverse⟩

/-- Python `str.rstrip()`: drop whitespace from the right end. -/
def pyRstrip (s : String) : String :=
  ⟨(s.data.reverse.dropWhile isPySpace).reverse⟩

/-- Lower-case one character (ASCII letter range, as in CPython's `str.lower`). -/
def pyLowerChar (c : Char) : Char :=
  if h : 65 ≤ c.toNat ∧ c.toNat ≤ 90 then
    Char.ofNatAux (c.toNat + 32) (Or.inl (by omega))
  else c

/-- Upper-case one character (ASCII letter range, as in CPython's `str.upper`). -/
def pyUpperChar (c : Char) : Char :=
  if h : 97 ≤ c.toNat ∧ c.toNat ≤ 122 then
    Char.ofNatAux (c.toNat - 32) (Or.inl (by omega))
  else c

/-- Python `str.lower()`. -/
def pyLower (s : String) : String := ⟨s.data.map pyLowerChar⟩

/-- Python `str.upper()`. -/
def pyUpper (s : String) : String := ⟨s.data.map pyUpperChar⟩

/-- Normalization performed first by `validate_package`: `line.strip().lower()`. -/
def pyNorm (line : String) : String := pyLower (pyStrip line)

/-- Boolean list-prefix test (model of Python `str.startswith` on `List Char`). -/
def isPrefixL : List Char → List Char → Bool
  | [], _ => true
  | _ :: _, [] => false
  | a :: as, b :: bs => a == b && isPrefixL as bs

/-- Python `s.startswith(p)`. -/
def pyStartsWith (s p : String) : Bool := isPrefixL p.data s.data

/-- Substring containment on character lists: some suffix of `l` has `sub` as prefix. -/
def containsSub : List Char → List Char → Bool
  | [], sub => sub.isEmpty
  | a :: rest, sub => isPrefixL sub (a :: rest) || containsSub rest sub

/-- Python `sub in s` (substring containment). -/
def strContains (s sub : String) : Bool := containsSub s.data sub.data

/-- Characters of `l` before the first occurrence of `::` (none removed when
`::` does not occur). -/
def splitHead2Colon : List Char → List Char
  | [] => []
  | ':' :: ':' :: _ => []
  | c :: rest => c :: splitHead2Colon rest

/-- Python `line.split("::")[0]`: the channel part of a channel-qualified spec. -/
def channelOf (l : String) : String := ⟨splitHead2Colon l.data⟩

/-- Accumulating worker for `pySplitlines`; the accumulator holds the current
line reversed. -/
def pySplitlinesAux : List Char → List Char → List String
  | [], acc => if acc.isEmpty then [] else [⟨acc.reverse⟩]
  | '\n' :: rest, acc => ⟨acc.reverse⟩ :: pySplitlinesAux rest []
  | c :: rest, acc => pySplitlinesAux rest (c :: acc)

/-- Python `str.splitlines()` for newline-separated text: splits on the
newline character and drops a final empty segment. -/
def pySplitlines (s : String) : List String := pySplitlinesAux s.data []

/-- Python `sep.join(parts)`. -/
def pyJoin (sep : String) : List String → String
  | [] => ""
  | [x] => x
  | x :: xs => x ++ sep ++ pyJoin sep xs

/-- Decidable equality on `Except`, needed to evaluate validator results with
`decide` in witnesses. -/
instance exceptDecEq {e a : Type} [DecidableEq e] [DecidableEq a] :
    DecidableEq (Except e a) := fun x y =>
  match x, y with
  | .ok v, .ok w =>
    if h : v = w then .isTrue (by rw [h]) else .isFalse (fun hc => h (Except.ok.inj hc))
  | .error v, .error w =>
    if h : v = w then .isTrue (by rw [h]) else .isFalse (fun hc => h (Except.error.inj hc))
  | .ok _, .error _ => .isFalse (fun hc => Except.noConfusion hc)
  | .error _, .ok _ => .isFalse (fun hc => Except.noConfusion hc)

/-- Report whether an `Except` is an error (a raised Python exception in the model). -/
def isErr {e a : Type} : Except e a → Bool
  | .error _ => true
  | .ok _ => false

/-! Constants of src/app.py. -/

def ALLOWED_CHANNELS : List String := ["conda-forge", "bioconda", "defaults"]

def MAX_CHARS_PER_LINE : Nat := 50

def MAX_LINES_PER_REQUEST : Nat := 25

/-- URI scheme strings checked by `validate_package`. -/
def URL_SCHEMES : List String := ["http://", "https://", "file://", "ftp://", "s3://"]

/-- Punctuation characters admitted by the final regular-expression rule. -/
def allowedSpecials : List Char :=
  ['_', '-', '.', '*', '=', '!', '>', '<', ',', '|', ';', '[', ']', '/']

/-- Membership in the character class of the final validation rule,
the regular expression `[a-zA-Z0-9_\-\.\*=!><,|;\[\]/]`. -/
def allowedChar (c : Char) : Bool :=
  ('a' ≤ c && c ≤ 'z') || ('A' ≤ c && c ≤ 'Z') || ('0' ≤ c && c ≤ '9')
    || allowedSpecials.contains c

/-- Exceptions raised by the validator; each constructor is one `raise
ValueError(...)` site of src/app.py, carrying the interpolated data. -/
inductive VErr where
  | lineTooLong
  | spacesNotAllowed (line : String)
  | channelNotAllowed (channel : String)
  | invalidSpec (line : String)
  | urlsNotAllowed (line : String)
  | wildcardsNotAllowed (line : String)
  | invalidChars (line : String)
  | tooManyPackages
  | noValidPackages
  deriving DecidableEq, Repr

/-- Message text of each `ValueError` of the source, for reference. -/
def VErr.message : VErr → String
  | .lineTooLong => "Line too long."
  | .spacesNotAllowed l => "Spaces not allowed in package spec: `" ++ l ++ "`"
  | .channelNotAllowed c =>
      "Specified channel `" ++ c ++ "` is not allowed. Use one of: conda-forge, bioconda, defaults."
  | .invalidSpec l => "Invalid package spec: `" ++ l ++ "`."
  | .urlsNotAllowed l => "URLs not allowed: `" ++ l ++ "`."
  | .wildcardsNotAllowed l => "Wildcards not allowed: `" ++ l ++ "`."
  | .invalidChars l => "Invalid characters in package spec: `" ++ l ++ "`."
  | .tooManyPackages => "Too many packages requested. Maximum is 25. "
  | .noValidPackages => "No valid packages specified."

/-- Model of `validate_package` (src/app.py lines 237-260).  `.ok none` models
the `return None` taken for blank and comment lines, `.ok (some l)` the
normalized accepted spec, `.error e` a raised `ValueError`.  The final rule
`re.match` is expressed as nonemptiness plus the character class: after
`strip()` the line cannot end in a newline, so the regular expression
`^[...]+$` agrees with that conjunction. -/
def validate_package (line : String) : Except VErr (Option String) :=
  if pyStartsWith (pyNorm line) "#" = true then .ok none
  else if pyNorm line = "" then .ok none
  else if (pyNorm line).length > MAX_CHARS_PER_LINE then .error .lineTooLong
  else if strContains (pyNorm line) " " = true then
    .error (.spacesNotAllowed (pyNorm line))
  else if strContains (pyNorm line) "::" = true ∧ channelOf (pyNorm line) ∉ ALLOWED_CHANNELS then
    .error (.channelNotAllowed (channelOf (pyNorm line)))
  else if pyStartsWith (pyNorm line) "-" = true then .error (.invalidSpec (pyNorm line))
  else if URL_SCHEMES.any (fun p => pyStartsWith (pyNorm line) p) = true then
    .error (.urlsNotAllowed (pyNorm line))
  else if pyStartsWith (pyNorm line) "*" = true then .error (.wildcardsNotAllowed (pyNorm line))
  else if pyNorm line ≠ "" ∧ (pyNorm line).data.all allowedChar = true then
    .ok (some (pyNorm line))
  else .error (.invalidChars (pyNorm line))

/-- Loop body of `validate_packages`: validate each line, keep truthy results,
propagate raised errors. -/
def validate_packages_loop : List String → List String → Except VErr (List String)
  | [], acc => .ok acc
  | pkg :: rest, acc =>
    match validate_package pkg with
    | .error e => .error e
    | .ok none => validate_packages_loop rest acc
    | .ok (some s) =>
        validate_packages_loop rest (if s ≠ "" then acc ++ [s] else acc)

/-- Model of `validate_packages` (src/app.py lines 263-275): reject when the
raw list has more than `MAX_LINES_PER_REQUEST` entries, then validate each
line, then reject when nothing valid remains. -/
def validate_packages (packages : List String) : Except VErr (List String) :=
  if packages.length > MAX_LINES_PER_REQUEST then .error .tooManyPackages
  else
    match validate_packages_loop packages [] with
    | .error e => .error e
    | .ok pkgs => if pkgs.isEmpty then .error .noValidPackages else .ok pkgs

/-! Model of the post-subprocess part of `solve` (src/app.py lines 104-173). -/

/-- Captured output of one completed subprocess `run` call. -/
structure ProcOut where
  stdout : String
  stderr : String
  returncode : Int
  deriving DecidableEq, Repr

/-- Python exceptions that can escape the modelled fragment of `solve`. -/
inductive PyExc where
  | typeError (msg : String)
  | timeoutExpired
  deriving DecidableEq, Repr

/-- JSON values as produced by `json.loads`. -/
inductive JVal where
  | null
  | jbool (b : Bool)
  | num (q : ℚ)
  | str (s : String)
  | arr (xs : List JVal)
  | obj (fields : List (String × JVal))

/-- Python truthiness of a JSON value. -/
def JVal.truthy : JVal → Bool
  | .null => false
  | .jbool b => b
  | .num q => decide (q ≠ 0)
  | .str s => decide (s ≠ "")
  | .arr xs => !xs.isEmpty
  | .obj fs => !fs.isEmpty

/-- Python `dict.get`: value of the first (unique) binding of `k`, if any. -/
def dictGet {a : Type} : List (String × a) → String → Option a
  | [], _ => none
  | (k', v) :: rest, k => if k' = k then some v else dictGet rest k

/-- Python `d[k] = v`: replace the binding in place, or append a new one. -/
def dictSet {a : Type} : List (String × a) → String → a → List (String × a)
  | [], k, v => [(k, v)]
  | (k', v') :: rest, k, v =>
    if k' = k then (k, v) :: rest else (k', v') :: dictSet rest k v

/-- Marker line scanned for in the secondary invocation's stderr. -/
def MARKER : String := "Could not solve for environment specs"

/-- Model of the `for line in p.stderr.splitlines()` loop of `solve`: `none`
models `error_lines is None` (no marker seen yet); accumulation starts after
the first marker line and stops at the next marker line. -/
def scanErrorLines : List String → Option (List String) → Option (List String)
  | [], acc => acc
  | line :: rest, acc =>
    if strContains (pyRstrip line) MARKER then
      match acc with
      | none => scanErrorLines rest (some [])
      | some a => some a
    else
      match acc with
      | none => scanErrorLines rest none
      | some a => scanErrorLines rest (some (a ++ [pyRstrip line]))

/-- Model of `"\n".join(error_lines)`: joining `None` raises `TypeError`. -/
def joinErrorLines : Option (List String) → Except PyExc String
  | none => .error (.typeError "can only join an iterable")
  | some ls => .ok (pyJoin "\n" ls)

/-- Explanation recovered from the secondary invocation's stderr, as computed
by `solve` before storing it under `explained_problems`. -/
def explainedProblemsOf (stderr : String) : Except PyExc String :=
  joinErrorLines (scanErrorLines (pySplitlines stderr) none)

/-- Return value of `solve`: either the hand-built failure dict for non-JSON
stdout, or the parsed JSON dict (with `stats` and possibly
`explained_problems` added). -/
inductive SolveRet where
  | failureDict (success : Bool) (stdout stderr : String) (returncode : Int)
      (cmd : List String) (virtual_packages : List (String × String)) (time_taken : ℚ)
  | jsonDict (fields : List (String × JVal))

/-- Model of `solve` after the primary subprocess has produced `p` in
`time_taken` seconds: `parsed` is the outcome of `json.loads(p.stdout)`
(`none` for a `json.JSONDecodeError`), and `secondary` the outcome of the
secondary diagnostic `run` call (`.error .timeoutExpired` when it exceeds its
timeout), which `solve` performs only on the conflict path. -/
def solvePost (cmd : List String) (virtual_packages : List (String × String))
    (p : ProcOut) (time_taken : ℚ) (parsed : Option JVal)
    (secondary : Except PyExc ProcOut) : Except PyExc SolveRet :=
  match parsed with
  | none =>
      .ok (.failureDict false p.stdout p.stderr p.returncode cmd virtual_packages time_taken)
  | some (.obj fs) =>
      let fs := dictSet fs "stats" (.obj [("time_taken", .num time_taken)])
      if (match dictGet fs "solver_problems" with
          | none => false
          | some v => v.truthy) = true then
        match secondary with
        | .error e => .error e
        | .ok p2 =>
          match joinErrorLines (scanErrorLines (pySplitlines p2.stderr) none) with
          | .error e => .error e
          | .ok expl => .ok (.jsonDict (dictSet fs "explained_problems" (.str expl)))
      else .ok (.jsonDict fs)
  | some _ => .error (.typeError "object does not support item assignment")

/-! Model of the `st.cache_data(ttl=TTL)` memoization of `solve`
(src/app.py lines 27, 104-112).  Streamlit keys the cache on the value of
every argument of the call, with no reordering or other canonicalization;
an entry is served while it is younger than the TTL. -/

/-- Argument tuple of one `solve` call, exactly as passed. -/
structure SolveArgs where
  packages : List String
  channels : List String
  platform : String
  priority : String
  virtual_packages : List (String × String)
  deriving DecidableEq, Repr

/-- TTL of the `solve` cache, in seconds (timestamps are modelled in whole
seconds). -/
def TTL : ℤ := 3600

/-- One memoized `solve` result. -/
structure CacheEntry (a : Type) where
  key : SolveArgs
  value : a
  createdAt : ℤ

/-- Cache lookup: an entry hits when its key equals the argument tuple and it
is younger than the TTL. -/
def cacheLookup {a : Type} : List (CacheEntry a) → SolveArgs → ℤ → Option a
  | [], _, _ => none
  | e :: rest, k, now =>
    if e.key = k ∧ now - e.createdAt < TTL then some e.value else cacheLookup rest k now

/-- One memoized call of `solve`: on a hit the stored value is returned and no
subprocess runs; on a miss `compute` (the result of the real solve, subprocess
included) is stored and returned.  The final component reports whether the
subprocess ran. -/
def cachedSolve {a : Type} (cache : List (CacheEntry a)) (k : SolveArgs) (now : ℤ)
    (compute : a) : a × List (CacheEntry a) × Bool :=
  match cacheLookup cache k now with
  | some v => (v, cache, false)
  | none => (compute, ⟨k, compute, now⟩ :: cache, true)

/-! Model of the subprocess-environment construction of `solve`
(src/app.py lines 130-133). -/

/-- Name of the override variable derived from a virtual-package key. -/
def overrideName (k : String) : String := "CONDA_OVERRIDE_" ++ pyUpper k

/-- Model of `env = os.environ.copy()` followed by the loop setting
`CONDA_OVERRIDE_<KEY>` for every truthy value of `virtual_packages`. -/
def buildEnv (ambient : List (String × String))
    (virtual_packages : List (String × String)) : List (String × String) :=
  virtual_packages.foldl
    (fun env kv => if kv.2 ≠ "" then dictSet env (overrideName kv.1) kv.2 else env)
    ambient

/-! Model of `_readable_size` (src/app.py lines 176-182).  The source converts
an integer byte count to an IEEE-754 double and repeatedly divides it by
1024.0.  Dividing a double by 1024 only decrements its exponent and never
rounds, so after `k` divisions the running value is exactly `num / 1024 ^ k`
whenever `num` itself is exactly representable (in particular for every
integer of at most 53 significant bits, and for every power of two).  The
model therefore carries the running value exactly as the fraction
`a / 1024 ^ k` with `a = |num|` an integer, and performs the correctly-rounded
one-decimal conversion that the `%.1f` float format performs. -/

/-- Round `a / b` (with `b > 0`) to the nearest natural number, ties to even,
as the `%.1f` float format does on exactly-represented values. -/
def roundHalfEvenDiv (a b : ℕ) : ℕ :=
  if 2 * (a % b) < b then a / b
  else if 2 * (a % b) > b then a / b + 1
  else if a / b % 2 = 0 then a / b else a / b + 1

/-- Python `f"{num:3.1f}"` applied to the value `(-1)^neg * (a / b)`.  The
width-3 minimum never pads: one decimal digit plus the point plus at least one
integral digit is already three characters. -/
def formatFixed1 (neg : Bool) (a b : ℕ) : String :=
  (if neg then "-" else "")
    ++ toString (roundHalfEvenDiv (10 * a) b / 10) ++ "."
    ++ toString (roundHalfEvenDiv (10 * a) b % 10)

/-- Loop of `_readable_size` over the unit prefixes; the running float is
`(-1)^neg * (a / 1024 ^ k)`. -/
def readableLoop : List String → Bool → ℕ → ℕ → String → String
  | [], neg, a, k, suffix => formatFixed1 neg a (1024 ^ k) ++ " Yi" ++ suffix
  | unit :: rest, neg, a, k, suffix =>
    if a < 1024 ^ (k + 1) then formatFixed1 neg a (1024 ^ k) ++ " " ++ unit ++ suffix
    else readableLoop rest neg a (k + 1) suffix

/-- Model of `_readable_size(num, suffix="B")`. -/
def readable_size (num : ℤ) (suffix : String := "B") : String :=
  readableLoop ["", "Ki", "Mi", "Gi", "Ti", "Pi", "Ei", "Zi"]
    (decide (num < 0)) num.natAbs 0 suffix


/-! Helper lemmas about the string model. -/

theorem pyLowerChar_toNat_of (c : Char) (h : 65 ≤ c.toNat ∧ c.toNat ≤ 90) :
    (pyLowerChar c).toNat = c.toNat + 32 := by
  unfold pyLowerChar
  rw [dif_pos h]
  rfl

theorem pyLowerChar_idem (c : Char) : pyLowerChar (pyLowerChar c) = pyLowerChar c := by
  by_cases h : 65 ≤ c.toNat ∧ c.toNat ≤ 90
  · have ht : (pyLowerChar c).toNat = c.toNat + 32 := pyLowerChar_toNat_of c h
    have hn : ¬(65 ≤ (pyLowerChar c).toNat ∧ (pyLowerChar c).toNat ≤ 90) := by omega
    exact dif_neg hn
  · have hc : pyLowerChar c = c := dif_neg h
    rw [hc]
    exact hc

theorem pyLower_idem (s : String) : pyLower (pyLower s) = pyLower s := by
  show String.mk ((s.data.map pyLowerChar).map pyLowerChar) = String.mk (s.data.map pyLowerChar)
  rw [List.map_map]
  have hf : pyLowerChar ∘ pyLowerChar = pyLowerChar := funext pyLowerChar_idem
  rw [hf]

theorem allowedChar_not_space (c : Char) (h : allowedChar c = true) : isPySpace c = false := by
  cases hc : isPySpace c with
  | false => rfl
  | true =>
    exfalso
    have hm : c ∈ [' ', '\t', '\n', '\r', '\x0b', '\x0c'] := by
      simpa [isPySpace] using hc
    fin_cases hm <;> exact absurd h (by decide)

theorem dropWhile_eq_self_of {p : Char → Bool} {l : List Char} (h : ∀ c ∈ l, p c = false) :
    l.dropWhile p = l := by
  cases l with
  | nil => rfl
  | cons a as =>
    have ha : p a = false := h a (List.mem_cons_self a as)
    simp [List.dropWhile, ha]

theorem pyStrip_eq_self {s : String} (h : ∀ c ∈ s.data, isPySpace c = false) : pyStrip s = s := by
  unfold pyStrip
  rw [dropWhile_eq_self_of h,
    dropWhile_eq_self_of (by intro c hc; exact h c (List.mem_reverse.mp hc)),
    List.reverse_reverse]

theorem isPrefixL_mem : ∀ {sub l : List Char}, isPrefixL sub l = true → ∀ c ∈ sub, c ∈ l := by
  intro sub
  induction sub with
  | nil => intro l _ c hc; exact absurd hc (List.not_mem_nil c)
  | cons a as ih =>
    intro l h c hc
    cases l with
    | nil => simp [isPrefixL] at h
    | cons b bs =>
      simp only [isPrefixL, Bool.and_eq_true, beq_iff_eq] at h
      obtain ⟨hab, hrest⟩ := h
      rcases List.mem_cons.mp hc with rfl | hmem
      · rw [hab]; exact List.mem_cons_self b bs
      · exact List.mem_cons_of_mem b (ih hrest c hmem)

theorem containsSub_mem : ∀ {l sub : List Char}, containsSub l sub = true → ∀ c ∈ sub, c ∈ l := by
  intro l
  induction l with
  | nil =>
    intro sub h c hc
    have hs : sub = [] := by simpa [containsSub] using h
    subst hs
    exact absurd hc (List.not_mem_nil c)
  | cons a rest ih =>
    intro sub h c hc
    rcases Bool.or_eq_true_iff.mp (by simpa [containsSub] using h) with hp | hr
    · exact isPrefixL_mem hp c hc
    · exact List.mem_cons_of_mem a (ih hr c hc)

/-! Fact bundle extracted from a successful `validate_package` run: the
returned spec is the normalized line and every guard of the source passed. -/

theorem vp_ok_facts {line s : String} (h : validate_package line = .ok (some s)) :
    s = pyNorm line ∧
    pyStartsWith s "#" = false ∧
    s ≠ "" ∧
    ¬s.length > MAX_CHARS_PER_LINE ∧
    strContains s " " = false ∧
    ¬(strContains s "::" = true ∧ channelOf s ∉ ALLOWED_CHANNELS) ∧
    pyStartsWith s "-" = false ∧
    URL_SCHEMES.any (fun p => pyStartsWith s p) = false ∧
    pyStartsWith s "*" = false ∧
    s.data.all allowedChar = true := by
  unfold validate_package at h
  by_cases c1 : pyStartsWith (pyNorm line) "#" = true
  · rw [if_pos c1] at h; exact absurd h (by simp)
  rw [if_neg c1] at h
  by_cases c2 : pyNorm line = ""
  · rw [if_pos c2] at h; exact absurd h (by simp)
  rw [if_neg c2] at h
  by_cases c3 : (pyNorm line).length > MAX_CHARS_PER_LINE
  · rw [if_pos c3] at h; exact absurd h (by simp)
  rw [if_neg c3] at h
  by_cases c4 : strContains (pyNorm line) " " = true
  · rw [if_pos c4] at h; exact absurd h (by simp)
  rw [if_neg c4] at h
  by_cases c5 : strContains (pyNorm line) "::" = true ∧ channelOf (pyNorm line) ∉ ALLOWED_CHANNELS
  · rw [if_pos c5] at h; exact absurd h (by simp)
  rw [if_neg c5] at h
  by_cases c6 : pyStartsWith (pyNorm line) "-" = true
  · rw [if_pos c6] at h; exact absurd h (by simp)
  rw [if_neg c6] at h
  by_cases c7 : URL_SCHEMES.any (fun p => pyStartsWith (pyNorm line) p) = true
  · rw [if_pos c7] at h; exact absurd h (by simp)
  rw [if_neg c7] at h
  by_cases c8 : pyStartsWith (pyNorm line) "*" = true
  · rw [if_pos c8] at h; exact absurd h (by simp)
  rw [if_neg c8] at h
  by_cases c9 : pyNorm line ≠ "" ∧ (pyNorm line).data.all allowedChar = true
  · rw [if_pos c9] at h
    have hs : pyNorm line = s := Option.some.inj (Except.ok.inj h)
    subst hs
    refine ⟨rfl, by simpa using c1, c2, c3, by simpa using c4, c5, by simpa using c6,
      by simpa using c7, by simpa using c8, c9.2⟩
  · rw [if_neg c9] at h; exact absurd h (by simp)

/-- Claim C1: validation is total on every raw input line — the embedded
`validate_package` is a total function into accept/skip/reject with a specific
reason — and a line accepted (passed through) is the normalized line and never
contains a space, never starts with a dash or an asterisk, carries a
channel-qualifier prefix only when that channel is in the allow-list, never
starts with a URI scheme, and contains only characters of the allowed set. -/
theorem validate_package_pass_through (line s : String)
    (h : validate_package line = .ok (some s)) :
    s = pyLower (pyStrip line) ∧
    strContains s " " = false ∧
    pyStartsWith s "-" = false ∧
    pyStartsWith s "*" = false ∧
    (strContains s "::" = true → channelOf s ∈ ALLOWED_CHANNELS) ∧
    (∀ scheme ∈ URL_SCHEMES, pyStartsWith s scheme = false) ∧
    s.data.all allowedChar = true := by
  obtain ⟨hnorm, h1, h2, h3, h4, h5, h6, h7, h8, h9⟩ := vp_ok_facts h
  refine ⟨hnorm, h4, h6, h8, ?_, ?_, h9⟩
  · intro hcc
    by_contra hch
    exact h5 ⟨hcc, hch⟩
  · intro p hp
    cases hfp : pyStartsWith s p with
    | false => rfl
    | true =>
      exfalso
      have hany : URL_SCHEMES.any (fun q => pyStartsWith s q) = true :=
        List.any_eq_true.mpr ⟨p, hp, hfp⟩
      rw [h7] at hany
      exact Bool.noConfusion hany

/-- Witness for claim C1 at the concrete line " NumPy>=1.18 ", accepted as
"numpy>=1.18". -/
theorem validate_package_pass_through_witness :
    ("numpy>=1.18" : String) = pyLower (pyStrip " NumPy>=1.18 ") ∧
    strContains "numpy>=1.18" " " = false ∧
    pyStartsWith "numpy>=1.18" "-" = false ∧
    pyStartsWith "numpy>=1.18" "*" = false ∧
    (strContains "numpy>=1.18" "::" = true → channelOf "numpy>=1.18" ∈ ALLOWED_CHANNELS) ∧
    (∀ scheme ∈ URL_SCHEMES, pyStartsWith "numpy>=1.18" scheme = false) ∧
    ("numpy>=1.18" : String).data.all allowedChar = true :=
  validate_package_pass_through " NumPy>=1.18 " "numpy>=1.18" (by decide)

/-- Claim C8: validation is idempotent — running `validate_package` on a spec
it has already accepted and returned gives back the same spec unchanged. -/
theorem validate_package_idempotent (line s : String)
    (h : validate_package line = .ok (some s)) :
    validate_package s = .ok (some s) := by
  obtain ⟨hnorm, h1, h2, h3, h4, h5, h6, h7, h8, h9⟩ := vp_ok_facts h
  have hallsp : ∀ c ∈ s.data, isPySpace c = false := fun c hc =>
    allowedChar_not_space c (List.all_eq_true.mp h9 c hc)
  have hstrip : pyStrip s = s := pyStrip_eq_self hallsp
  have hlow : pyLower s = s := by
    rw [hnorm]
    exact pyLower_idem (pyStrip line)
  have hns : pyNorm s = s := by
    unfold pyNorm
    rw [hstrip, hlow]
  unfold validate_package
  rw [hns]
  rw [if_neg (by simp [h1]), if_neg h2, if_neg h3, if_neg (by simp [h4]), if_neg h5,
    if_neg (by simp [h6]), if_neg (by simp [h7]), if_neg (by simp [h8]),
    if_pos ⟨h2, h9⟩]

/-- Witness for claim C8: "numpy>=1.18" is accepted from " NumPy>=1.18 " and
re-validating it returns it unchanged. -/
theorem validate_package_idempotent_witness :
    validate_package "numpy>=1.18" = .ok (some "numpy>=1.18") :=
  validate_package_idempotent " NumPy>=1.18 " "numpy>=1.18" (by decide)

/-- Claim C10: no line containing the channel-qualifier separator `::` is ever
passed through, even when its channel prefix is allow-listed, because the
colon is outside the character set of the final rule: every accepted spec is
free of `::`, and every non-blank non-comment normalized line containing `::`
makes `validate_package` raise. -/
theorem double_colon_never_passes :
    (∀ line s : String, validate_package line = .ok (some s) → strContains s "::" = false) ∧
    (∀ line : String, strContains (pyNorm line) "::" = true →
      pyStartsWith (pyNorm line) "#" = false → pyNorm line ≠ "" →
      isErr (validate_package line) = true) := by
  constructor
  · intro line s h
    obtain ⟨hnorm, h1, h2, h3, h4, h5, h6, h7, h8, h9⟩ := vp_ok_facts h
    cases hcc : strContains s "::" with
    | false => rfl
    | true =>
      exfalso
      have hcol : ':' ∈ s.data := containsSub_mem hcc ':' (by decide)
      exact absurd (List.all_eq_true.mp h9 ':' hcol) (by decide)
  · intro line hcc hhash hne
    unfold validate_package
    rw [if_neg (by simp [hhash]), if_neg hne]
    by_cases c3 : (pyNorm line).length > MAX_CHARS_PER_LINE
    · rw [if_pos c3]; rfl
    rw [if_neg c3]
    by_cases c4 : strContains (pyNorm line) " " = true
    · rw [if_pos c4]; rfl
    rw [if_neg c4]
    by_cases c5 : strContains (pyNorm line) "::" = true ∧ channelOf (pyNorm line) ∉ ALLOWED_CHANNELS
    · rw [if_pos c5]; rfl
    rw [if_neg c5]
    by_cases c6 : pyStartsWith (pyNorm line) "-" = true
    · rw [if_pos c6]; rfl
    rw [if_neg c6]
    by_cases c7 : URL_SCHEMES.any (fun p => pyStartsWith (pyNorm line) p) = true
    · rw [if_pos c7]; rfl
    rw [if_neg c7]
    by_cases c8 : pyStartsWith (pyNorm line) "*" = true
    · rw [if_pos c8]; rfl
    rw [if_neg c8]
    have hno : ¬(pyNorm line ≠ "" ∧ (pyNorm line).data.all allowedChar = true) := by
      rintro ⟨-, hall⟩
      have hcol : ':' ∈ (pyNorm line).data := containsSub_mem hcc ':' (by decide)
      exact absurd (List.all_eq_true.mp hall ':' hcol) (by decide)
    rw [if_neg hno]
    rfl

/-- Witness for claim C10: the accepted spec "numpy" carries no `::`, and the
allow-listed channel-qualified line "conda-forge::numpy" is rejected. -/
theorem double_colon_never_passes_witness :
    strContains "numpy" "::" = false ∧
    isErr (validate_package "conda-forge::numpy") = true :=
  ⟨double_colon_never_passes.1 " NumPy " "numpy" (by decide),
   double_colon_never_passes.2 "conda-forge::numpy" (by decide) (by decide) (by decide)⟩

/-- Helper: no single-line validation raises the size-limit error. -/
theorem validate_package_ne_tooMany (l : String) :
    validate_package l ≠ .error .tooManyPackages := by
  intro h
  unfold validate_package at h
  repeat' split at h
  all_goals simp_all

/-- Helper: the per-line loop of `validate_packages` never raises the
size-limit error. -/
theorem validate_packages_loop_ne_tooMany :
    ∀ pkgs acc : List String, validate_packages_loop pkgs acc ≠ .error .tooManyPackages := by
  intro pkgs
  induction pkgs with
  | nil => intro acc h; exact Except.noConfusion h
  | cons p rest ih =>
    intro acc h
    unfold validate_packages_loop at h
    cases hv : validate_package p with
    | error e =>
      rw [hv] at h
      have he : e = VErr.tooManyPackages := Except.error.inj h
      subst he
      exact validate_package_ne_tooMany p hv
    | ok o =>
      cases o with
      | none => rw [hv] at h; exact ih acc h
      | some s => rw [hv] at h; exact ih _ h

/-- Counterexample to claim C3 as stated: a request of 26 raw lines of which
only 25 are non-empty is nevertheless rejected by the line-count rule, because
the source counts raw lines (blank and comment lines included). -/
theorem validate_packages_size_limit_cex :
    ((("" :: List.replicate 25 "numpy").filter (fun l => !(l == ""))).length = 25) ∧
    validate_packages ("" :: List.replicate 25 "numpy") = .error .tooManyPackages := by
  constructor
  · decide
  · decide

/-- Claim C3 (amended): the size-limit rejection happens exactly when the raw
line count (blank and comment lines included) exceeds 25; in particular 26
non-empty lines are rejected before any per-line work, and a request of at
most 25 raw lines is never rejected by the line-count rule. -/
theorem validate_packages_size_limit (packages : List String) :
    (packages.length > MAX_LINES_PER_REQUEST →
      validate_packages packages = .error .tooManyPackages) ∧
    (packages.length ≤ MAX_LINES_PER_REQUEST →
      validate_packages packages ≠ .error .tooManyPackages) := by
  constructor
  · intro hlen
    unfold validate_packages
    rw [if_pos hlen]
  · intro hlen h
    unfold validate_packages at h
    rw [if_neg (not_lt.mpr hlen)] at h
    cases hl : validate_packages_loop packages [] with
    | error e =>
      rw [hl] at h
      have he : e = VErr.tooManyPackages := Except.error.inj h
      subst he
      exact validate_packages_loop_ne_tooMany packages [] hl
    | ok pkgs =>
      rw [hl] at h
      have h' : (if pkgs.isEmpty = true then (Except.error VErr.noValidPackages : Except VErr (List String))
          else Except.ok pkgs) = Except.error VErr.tooManyPackages := h
      by_cases hp : pkgs.isEmpty = true
      · rw [if_pos hp] at h'
        exact absurd (Except.error.inj h') (by decide)
      · rw [if_neg hp] at h'
        exact Except.noConfusion h'

/-- Witness for claim C3 (amended): 26 non-empty lines are rejected by the
size limit, one line is not. -/
theorem validate_packages_size_limit_witness :
    validate_packages (List.replicate 26 "numpy") = .error .tooManyPackages ∧
    validate_packages ["numpy"] ≠ .error .tooManyPackages :=
  ⟨(validate_packages_size_limit (List.replicate 26 "numpy")).1 (by decide),
   (validate_packages_size_limit ["numpy"]).2 (by decide)⟩

/-- Claim C4: whenever the primary subprocess stdout does not parse as JSON
(`json.loads` raises, modelled as `parsed = none`), `solve` returns — never
raises — a Failure record with `success = false` that preserves the original
stdout, stderr, return code, command line, virtual packages and elapsed
time. -/
theorem solve_malformed_stdout_failure (cmd : List String)
    (virtual_packages : List (String × String)) (p : ProcOut) (t : ℚ)
    (secondary : Except PyExc ProcOut) :
    solvePost cmd virtual_packages p t none secondary =
      .ok (.failureDict false p.stdout p.stderr p.returncode cmd virtual_packages t) := rfl

/-- Claim C2 is violated by the code: on the conflict path (truthy
`solver_problems`), a secondary stderr with no marker line leaves the
accumulator `None` and `"\n".join(None)` raises `TypeError`, and a timeout of
the secondary `run` propagates `TimeoutExpired`; either way `solve` raises and
the primary Conflict result is discarded, instead of being returned with the
explanation merely absent. -/
theorem solve_secondary_not_best_effort :
    solvePost ["micromamba", "create"] [] (ProcOut.mk "out" "err" 1) 0
        (some (.obj [("solver_problems", .arr [.str "nothing provides x"])]))
        (.ok (ProcOut.mk "" "some stderr without the marker" 1)) =
      .error (.typeError "can only join an iterable") ∧
    solvePost ["micromamba", "create"] [] (ProcOut.mk "out" "err" 1) 0
        (some (.obj [("solver_problems", .arr [.str "nothing provides x"])]))
        (.error .timeoutExpired) =
      .error .timeoutExpired := ⟨rfl, rfl⟩

/-- Claim C6: for a secondary stderr made of a marker line, exactly two
explanation lines and a second marker line, the extracted explanation is
exactly the two (right-stripped) lines joined by a single newline:
accumulation starts after the first marker and stops at the second. -/
theorem conflict_explanation_two_lines (stderr m l1 l2 m2 : String)
    (hs : pySplitlines stderr = [m, l1, l2, m2])
    (hm : strContains (pyRstrip m) MARKER = true)
    (hm2 : strContains (pyRstrip m2) MARKER = true)
    (h1 : strContains (pyRstrip l1) MARKER = false)
    (h2 : strContains (pyRstrip l2) MARKER = false) :
    explainedProblemsOf stderr = .ok (pyRstrip l1 ++ "\n" ++ pyRstrip l2) := by
  unfold explainedProblemsOf
  rw [hs]
  simp only [scanErrorLines, hm, hm2, h1, h2, if_true, Bool.false_eq_true, if_false,
    List.nil_append, List.cons_append, joinErrorLines, pyJoin]

/-- Witness for claim C6 at a concrete four-line stderr. -/
theorem conflict_explanation_two_lines_witness :
    explainedProblemsOf
        ("Could not solve for environment specs\nThe following packages are incompatible\nnothing provides glibc needed by x\nCould not solve for environment specs") =
      .ok ("The following packages are incompatible\nnothing provides glibc needed by x") :=
  conflict_explanation_two_lines _
    "Could not solve for environment specs"
    "The following packages are incompatible"
    "nothing provides glibc needed by x"
    "Could not solve for environment specs"
    (by decide) (by decide) (by decide) (by decide) (by decide)

/-- Counterexample to claim C5 as stated: two calls whose channel lists are
equal up to reordering do not collapse to one cache key — the second call
misses the cache (its final component `true` records that the subprocess ran
again), because `st.cache_data` keys on the argument values exactly as
passed. -/
theorem solve_cache_not_canonicalized_cex :
    (SolveArgs.mk ["numpy"] ["conda-forge", "bioconda"] "linux-64" "strict" []).channels.Perm
      (SolveArgs.mk ["numpy"] ["bioconda", "conda-forge"] "linux-64" "strict" []).channels ∧
    (cachedSolve
        (cachedSolve ([] : List (CacheEntry Nat))
          (SolveArgs.mk ["numpy"] ["conda-forge", "bioconda"] "linux-64" "strict" []) 0 7).2.1
        (SolveArgs.mk ["numpy"] ["bioconda", "conda-forge"] "linux-64" "strict" []) 10 8).2.2
      = true := by
  constructor
  · decide
  · decide

/-- Claim C5 (amended): the cache key of `solve` is the argument tuple exactly
as passed (no canonicalization inside `solve`; the caller sorts the specs
before calling, so only spec order is canonicalized, by the caller): a second
call within the TTL window with the identical argument tuple returns the
stored result without running the subprocess again. -/
theorem solve_cache_identical_args_hit {a : Type} (args : SolveArgs) (v w : a)
    (t1 t2 : ℤ) (h : t2 - t1 < TTL) :
    (cachedSolve ([] : List (CacheEntry a)) args t1 v).2.2 = true ∧
    (cachedSolve (cachedSolve ([] : List (CacheEntry a)) args t1 v).2.1 args t2 w).1 = v ∧
    (cachedSolve (cachedSolve ([] : List (CacheEntry a)) args t1 v).2.1 args t2 w).2.2 = false := by
  have hfirst : cachedSolve ([] : List (CacheEntry a)) args t1 v =
      (v, [CacheEntry.mk args v t1], true) := rfl
  rw [hfirst]
  have hlook : cacheLookup [CacheEntry.mk args v t1] args t2 = some v := by
    unfold cacheLookup
    rw [if_pos ⟨rfl, h⟩]
  unfold cachedSolve
  rw [hlook]
  exact ⟨rfl, rfl, rfl⟩

/-- Witness for claim C5 (amended) at a concrete argument tuple and the
timestamps 0 and 10. -/
theorem solve_cache_identical_args_hit_witness :
    (cachedSolve ([] : List (CacheEntry Nat))
        (SolveArgs.mk ["numpy"] ["conda-forge"] "linux-64" "strict" []) 0 7).2.2 = true ∧
    (cachedSolve
        (cachedSolve ([] : List (CacheEntry Nat))
          (SolveArgs.mk ["numpy"] ["conda-forge"] "linux-64" "strict" []) 0 7).2.1
        (SolveArgs.mk ["numpy"] ["conda-forge"] "linux-64" "strict" []) 10 8).1 = 7 ∧
    (cachedSolve
        (cachedSolve ([] : List (CacheEntry Nat))
          (SolveArgs.mk ["numpy"] ["conda-forge"] "linux-64" "strict" []) 0 7).2.1
        (SolveArgs.mk ["numpy"] ["conda-forge"] "linux-64" "strict" []) 10 8).2.2 = false :=
  solve_cache_identical_args_hit
    (SolveArgs.mk ["numpy"] ["conda-forge"] "linux-64" "strict" []) 7 8 0 10 (by decide)

/-- Helper: looking up the key just set returns the new value. -/
theorem dictGet_dictSet_self {a : Type} (d : List (String × a)) (k : String) (v : a) :
    dictGet (dictSet d k v) k = some v := by
  induction d with
  | nil => simp [dictSet, dictGet]
  | cons kv rest ih =>
    obtain ⟨k0, v0⟩ := kv
    by_cases hk : k0 = k
    · subst hk
      simp [dictSet, dictGet]
    · simp only [dictSet, dictGet, if_neg hk]
      exact ih

/-- Helper: setting one key leaves every other key's lookup unchanged. -/
theorem dictGet_dictSet_ne {a : Type} (d : List (String × a)) (k k' : String) (v : a)
    (h : k ≠ k') : dictGet (dictSet d k v) k' = dictGet d k' := by
  induction d with
  | nil => simp [dictSet, dictGet, h]
  | cons kv rest ih =>
    obtain ⟨k0, v0⟩ := kv
    by_cases hk : k0 = k
    · subst hk
      simp [dictSet, dictGet, h]
    · simp only [dictSet, dictGet, if_neg hk]
      by_cases hk' : k0 = k'
      · simp [dictGet, hk']
      · simp [dictGet, hk', ih]

/-- Helper: `buildEnv` does not touch names that are not override names of a
non-empty virtual-package entry. -/
theorem buildEnv_frame : ∀ (vps ambient : List (String × String)) (name : String),
    (∀ kv ∈ vps, kv.2 ≠ "" → overrideName kv.1 ≠ name) →
    dictGet (buildEnv ambient vps) name = dictGet ambient name := by
  intro vps
  induction vps with
  | nil => intro ambient name _; rfl
  | cons kv rest ih =>
    intro ambient name hf
    obtain ⟨k, v⟩ := kv
    show dictGet
        (buildEnv (if v ≠ "" then dictSet ambient (overrideName k) v else ambient) rest) name =
      dictGet ambient name
    rw [ih _ name (fun kv' hm hv => hf kv' (List.mem_cons_of_mem _ hm) hv)]
    by_cases hv : v ≠ ""
    · rw [if_pos hv]
      exact dictGet_dictSet_ne ambient (overrideName k) name v
        (hf (k, v) (List.mem_cons_self _ _) hv)
    · rw [if_neg hv]

/-- Helper: when the override names of the entries are pairwise distinct,
`buildEnv` binds each non-empty entry's override name to its value. -/
theorem buildEnv_sets : ∀ (vps ambient : List (String × String)),
    (vps.map (fun kv => overrideName kv.1)).Nodup →
    ∀ kv ∈ vps, kv.2 ≠ "" →
    dictGet (buildEnv ambient vps) (overrideName kv.1) = some kv.2 := by
  intro vps
  induction vps with
  | nil => intro ambient _ kv hm; exact absurd hm (List.not_mem_nil kv)
  | cons kv0 rest ih =>
    intro ambient hnd kv hm hv
    obtain ⟨k0, v0⟩ := kv0
    have hnotin : overrideName k0 ∉ rest.map (fun kv' => overrideName kv'.1) :=
      (List.nodup_cons.mp hnd).1
    have hnd' : (rest.map (fun kv' => overrideName kv'.1)).Nodup :=
      (List.nodup_cons.mp hnd).2
    rcases List.mem_cons.mp hm with rfl | hmem
    · show dictGet
          (buildEnv (if v0 ≠ "" then dictSet ambient (overrideName k0) v0 else ambient) rest)
          (overrideName k0) = some v0
      have hframe : ∀ kv' ∈ rest, kv'.2 ≠ "" → overrideName kv'.1 ≠ overrideName k0 := by
        intro kv' hm' _ heq
        exact hnotin (heq ▸ List.mem_map_of_mem _ hm')
      rw [buildEnv_frame rest _ (overrideName k0) hframe]
      rw [if_pos hv]
      exact dictGet_dictSet_self ambient (overrideName k0) v0
    · show dictGet
          (buildEnv (if v0 ≠ "" then dictSet ambient (overrideName k0) v0 else ambient) rest)
          (overrideName kv.1) = some kv.2
      exact ih _ hnd' kv hmem hv

/-- Counterexample to claim C7 as stated: an ambient variable that already
bears an override name is modified — `CONDA_OVERRIDE_CUDA` is overwritten from
"11.0" to "12.0" — so "no ambient environment variable is removed or
modified" fails. -/
theorem build_env_overwrites_ambient_cex :
    dictGet
        (buildEnv [("PATH", "/usr/bin"), ("CONDA_OVERRIDE_CUDA", "11.0")] [("cuda", "12.0")])
        "CONDA_OVERRIDE_CUDA" = some "12.0" ∧
    dictGet [("PATH", "/usr/bin"), ("CONDA_OVERRIDE_CUDA", "11.0")] "CONDA_OVERRIDE_CUDA" =
      some "11.0" := by
  constructor
  · decide
  · decide

/-- Claim C7 (amended): the subprocess environment is the ambient environment
plus one variable `CONDA_OVERRIDE_<KEY>` (key uppercased) per virtual-package
entry with a non-empty value: entries with empty values add nothing, every
ambient variable whose name is not such an override name keeps its value, and
(when the override names are pairwise distinct) each non-empty entry's
override variable holds exactly that entry's value — an ambient variable that
already bears an override name is overwritten. -/
theorem build_env_overrides (ambient vps : List (String × String)) :
    (∀ name : String, (∀ kv ∈ vps, kv.2 ≠ "" → overrideName kv.1 ≠ name) →
      dictGet (buildEnv ambient vps) name = dictGet ambient name) ∧
    ((vps.map (fun kv => overrideName kv.1)).Nodup →
      ∀ kv ∈ vps, kv.2 ≠ "" →
      dictGet (buildEnv ambient vps) (overrideName kv.1) = some kv.2) :=
  ⟨fun name hf => buildEnv_frame vps ambient name hf,
   fun hnd kv hm hv => buildEnv_sets vps ambient hnd kv hm hv⟩

/-- Witness for claim C7 (amended): with ambient PATH and entries
cuda = "12.0" and glibc = "", PATH is preserved and `CONDA_OVERRIDE_CUDA` is
set to "12.0". -/
theorem build_env_overrides_witness :
    dictGet (buildEnv [("PATH", "/usr/bin")] [("cuda", "12.0"), ("glibc", "")]) "PATH" =
      some "/usr/bin" ∧
    dictGet (buildEnv [("PATH", "/usr/bin")] [("cuda", "12.0"), ("glibc", "")])
      (overrideName "cuda") = some "12.0" :=
  ⟨(build_env_overrides [("PATH", "/usr/bin")] [("cuda", "12.0"), ("glibc", "")]).1
      "PATH" (by decide),
   (build_env_overrides [("PATH", "/usr/bin")] [("cuda", "12.0"), ("glibc", "")]).2
      (by decide) ("cuda", "12.0") (by decide) (by decide)⟩

/-- Claim C9: `_readable_size` formats with binary (1024-based) prefixes with
one-decimal precision, reaching the Yi fallthrough after the Ei and Zi units;
in particular 1536 formats as "1.5 KiB", 0 as "0.0 B", and 1024 to the 8th
as "1.0 YiB". -/
theorem readable_size_formatting :
    readable_size 1536 = "1.5 KiB" ∧ readable_size 0 = "0.0 B" ∧
    readable_size (1024 ^ 8) = "1.0 YiB" := by
  refine ⟨by decide, by decide, by decide⟩
